import Mathlib

/-!
Shallow embedding of the solar-system visualization in `src/app.js`:
the celestial-body catalog (`planetsData`), the orbit-graph build loop
(`planetsData.forEach`), the per-frame rotation step of `animate`, the
`animationActive` pause flag and its window handlers, the picking done
by `onMouseMove`/`onClick` over `hoverablePlanets`, and the Mars GIF
overlay timer of `showGifOverlay`.

Numbers are embedded as exact rationals; milliseconds as integers.
The ray–sphere geometry performed inside `THREE.Raycaster` is not part
of this repository, so intersection is parameterized by an oracle
giving each mesh its ray parameter (`none` on a miss); the library's
documented contract of returning hits sorted by increasing distance is
embedded directly.
-/

namespace App

/-- The role a mesh plays in the scene. -/
inductive BodyKind where
  | planet
  | moon
  | ring
  | sun
deriving DecidableEq, Repr

/-- One record of `planetsData` (src/app.js lines 60-128). -/
structure PlanetData where
  name : String
  orbitRadius : ℚ
  planetRadius : ℚ
  color : Option Nat
  rotationSpeed : ℚ
  texture : Option String := none
  funFact : String
  hasMoon : Bool := false
  hasRings : Bool := false
deriving DecidableEq, Repr

/-- A mesh: its geometry radius, its local position offset along the x
axis (`position.set(r, 0, 0)`), and the `userData` tooltip fields,
which are set for planets only (moons, rings and the sun carry none). -/
structure Mesh where
  kind : BodyKind
  radius : ℚ
  posX : ℚ
  userName : Option String
  userFact : Option String
deriving DecidableEq, Repr

/-- An orbit group (`THREE.Object3D`): its rotation angle about the
vertical axis, the body mesh placed inside it, and whether the group
was added directly to the scene (planet orbits built by
`createPlanetOrbit`) or nested under a planet mesh (the moon orbit). -/
structure OrbitNode where
  rotationY : ℚ
  bodyMesh : Mesh
  inScene : Bool
deriving DecidableEq, Repr

/-- One element of `planetOrbits`: `{ group: ..., speed: ... }`. -/
structure AnimEntry where
  group : OrbitNode
  speed : ℚ
deriving DecidableEq, Repr

/-- The catalog `planetsData` (src/app.js lines 60-128). -/
def planetsData : List PlanetData := [
  { name := "Mercury", orbitRadius := 8, planetRadius := 0.5,
    color := some 0xaaaaaa, rotationSpeed := 0.02,
    funFact := "Mercury is the smallest planet and closest to the Sun." },
  { name := "Venus", orbitRadius := 11, planetRadius := 0.7,
    color := some 0xeed5b7, rotationSpeed := 0.015,
    funFact := "Venus has a thick atmosphere and is the hottest planet." },
  { name := "Earth", orbitRadius := 14, planetRadius := 1,
    color := none, rotationSpeed := 0.01,
    texture := some "https://threejs.org/examples/textures/land_ocean_ice_cloud_2048.jpg",
    funFact := "Earth is our home and the only planet known to support life.",
    hasMoon := true },
  { name := "Mars", orbitRadius := 17, planetRadius := 0.53,
    color := some 0xff4500, rotationSpeed := 0.008,
    funFact := "Mars is known as the Red Planet, home to the tallest volcano." },
  { name := "Jupiter", orbitRadius := 22, planetRadius := 2,
    color := some 0xffa500, rotationSpeed := 0.005,
    funFact := "Jupiter is the largest planet and features the Great Red Spot." },
  { name := "Saturn", orbitRadius := 28, planetRadius := 1.7,
    color := some 0xffd27f, rotationSpeed := 0.003,
    funFact := "Saturn is famous for its spectacular rings.",
    hasRings := true },
  { name := "Uranus", orbitRadius := 34, planetRadius := 1.2,
    color := some 0x66ccff, rotationSpeed := 0.002,
    funFact := "Uranus rotates on its side, giving it extreme seasons." },
  { name := "Neptune", orbitRadius := 40, planetRadius := 1.2,
    color := some 0x3366ff, rotationSpeed := 0.001,
    funFact := "Neptune has supersonic winds and a deep blue color." }]

/-- The planet mesh built for one catalog entry: sphere sized by
`planetRadius`, placed by `createPlanetOrbit` at `(orbitRadius, 0, 0)`,
carrying the tooltip `userData` (src/app.js lines 136-147). -/
def mkPlanetMesh (p : PlanetData) : Mesh :=
  { kind := .planet, radius := p.planetRadius, posX := p.orbitRadius,
    userName := some p.name, userFact := some p.funFact }

/-- The moon mesh: radius 0.27, offset 2 along x, no `userData`
(src/app.js lines 155-160). -/
def moonMesh : Mesh :=
  { kind := .moon, radius := 0.27, posX := 2, userName := none, userFact := none }

/-- The decorative ring mesh for `hasRings` planets, inner radius
`planetRadius * 1.2` (src/app.js lines 167-181); no `userData`. -/
def mkRingMesh (p : PlanetData) : Mesh :=
  { kind := .ring, radius := p.planetRadius * 1.2, posX := 0,
    userName := none, userFact := none }

/-- The sun mesh (src/app.js lines 53-57): radius 4, centered at the
origin, added to the scene directly, never to `hoverablePlanets` or
`planetOrbits`. -/
def sunMesh : Mesh :=
  { kind := .sun, radius := 4, posX := 0, userName := none, userFact := none }

/-- The animation entries one catalog entry pushes onto `planetOrbits`:
the scene-level planet orbit group with the catalog `rotationSpeed`,
followed — iff the entry `hasMoon` — by the moon orbit group (nested
under the planet mesh) with the fixed speed 0.05 (src/app.js lines
150-164). -/
def entryAnims (p : PlanetData) : List AnimEntry :=
  [{ group := { rotationY := 0, bodyMesh := mkPlanetMesh p, inScene := true },
     speed := p.rotationSpeed }]
  ++ (if p.hasMoon then
        [{ group := { rotationY := 0, bodyMesh := moonMesh, inScene := false },
           speed := 0.05 }]
      else [])

/-- Everything the `planetsData.forEach` loop accumulates. -/
structure BuildResult where
  planetOrbits : List AnimEntry
  hoverablePlanets : List Mesh
  ringMeshes : List Mesh
deriving DecidableEq, Repr

/-- The build loop `planetsData.forEach` (src/app.js lines 134-183):
for each catalog entry, one planet mesh pushed to `hoverablePlanets`,
the animation entries of `entryAnims` pushed to `planetOrbits`, and a
ring mesh built iff `hasRings`.  No entry is validated or skipped. -/
def buildSystem (catalog : List PlanetData) : BuildResult :=
  { planetOrbits := catalog.flatMap entryAnims,
    hoverablePlanets := catalog.map mkPlanetMesh,
    ringMeshes := (catalog.filter (·.hasRings)).map mkRingMesh }

/-- One rotation update of the animation loop:
`item.group.rotation.y += item.speed * delta * 60` (src/app.js 203). -/
def rotateEntry (delta : ℚ) (item : AnimEntry) : AnimEntry :=
  { item with group :=
      { item.group with rotationY := item.group.rotationY + item.speed * delta * 60 } }

/-- The rotation step of `animate` (src/app.js lines 201-205): when
`animationActive` holds, every entry of `planetOrbits` is rotated;
otherwise nothing is touched. -/
def advance (entries : List AnimEntry) (delta : ℚ) (animationActive : Bool) :
    List AnimEntry :=
  if animationActive then entries.map (rotateEntry delta) else entries

/-- The mutable module-level state reachable from the frame callback. -/
structure SceneState where
  entries : List AnimEntry
  hoverablePlanets : List Mesh
  ringMeshes : List Mesh
  animationActive : Bool
deriving DecidableEq, Repr

/-- One frame of `animate` restricted to its state effect: only the
entries of `planetOrbits` are written, guarded by `animationActive`
(rendering and camera controls carry no model state). -/
def animateStep (s : SceneState) (delta : ℚ) : SceneState :=
  { s with entries := advance s.entries delta s.animationActive }

/-- The window events the page listens to (src/app.js lines 188-193,
213, 220, 240). -/
inductive UIEvent where
  | mousedown
  | mouseup
  | mousemove
  | click
  | resize
deriving DecidableEq, Repr

/-- `animationActive` starts out `true` (src/app.js line 186). -/
def animationActiveInit : Bool := true

/-- Effect of each window event on `animationActive` (src/app.js lines
188-193): `mousedown` clears it, `mouseup` sets it, and the remaining
handlers (`mousemove`, `click`, `resize`) never assign it. -/
def handleEvent (active : Bool) : UIEvent → Bool
  | .mousedown => false
  | .mouseup => true
  | .mousemove => active
  | .click => active
  | .resize => active

/-- One element of the array `raycaster.intersectObjects` returns: the
hit object together with its ray parameter (distance from the camera
along the pointer ray). -/
structure Hit where
  object : Mesh
  distance : ℚ
deriving DecidableEq, Repr

/-- The ordering `intersectObjects` sorts by: increasing ray parameter. -/
def hitLE (a b : Hit) : Prop := a.distance ≤ b.distance

instance : DecidableRel hitLE :=
  fun a b => inferInstanceAs (Decidable (a.distance ≤ b.distance))

instance : IsTotal Hit hitLE := ⟨fun a b => le_total a.distance b.distance⟩

instance : IsTrans Hit hitLE := ⟨fun _ _ _ => le_trans⟩

/-- `raycaster.intersectObjects(objs)`: the members of `objs` hit by
the pointer ray, sorted by increasing ray parameter.  `rayHit` is the
geometric oracle: the ray parameter at which the ray built by
`setFromCamera` meets a mesh, `none` on a miss. -/
def intersectObjects (rayHit : Mesh → Option ℚ) (objs : List Mesh) : List Hit :=
  List.insertionSort hitLE
    (objs.filterMap fun o => (rayHit o).map fun t => { object := o, distance := t })

/-- The selection both `onMouseMove` and `onClick` perform
(src/app.js lines 226-229 and 246-249): the object of `intersects[0]`
when the intersection list is nonempty, nothing otherwise. -/
def pick (rayHit : Mesh → Option ℚ) (objs : List Mesh) : Option Mesh :=
  (intersectObjects rayHit objs).head?.map (·.object)

/-- Normalized device coordinates from pixel coordinates, the identical
computation of `onMouseMove` and `onClick` (src/app.js lines 222-223
and 242-243). -/
def normalizedMouse (clientX clientY innerWidth innerHeight : ℚ) : ℚ × ℚ :=
  (clientX / innerWidth * 2 - 1, -(clientY / innerHeight) * 2 + 1)

/-- Picking as a function of the normalized pointer position: `camera`
maps a pointer position to the hit oracle of the ray `setFromCamera`
builds for it; the registry is then intersected and the nearest hit
taken. -/
def pickAt (camera : ℚ × ℚ → Mesh → Option ℚ) (mouse : ℚ × ℚ)
    (objs : List Mesh) : Option Mesh :=
  pick (camera mouse) objs

/-- Timeline events of the Mars overlay, given the times (ms) of the
qualifying clicks: each click at time `c` shows the overlay
(`display = "block"`) and schedules a hide (`display = "none"`) at
`c + 5000`; `showGifOverlay` contains no `clearTimeout`, so no pending
hide is ever cancelled (src/app.js lines 256-278).  `true` marks a
show event, `false` a hide event. -/
def overlayEvents (clicks : List ℤ) : List (ℤ × Bool) :=
  clicks.map (fun c => (c, true)) ++ clicks.map (fun c => (c + 5000, false))

/-- Whether the overlay is displayed at time `t`: replay all show/hide
events due by `t` in chronological order, starting hidden. -/
def overlayVisibleAt (clicks : List ℤ) (t : ℤ) : Bool :=
  (List.insertionSort (fun a b => a.1 ≤ b.1)
      ((overlayEvents clicks).filter (fun e => decide (e.1 ≤ t)))).foldl
    (fun _ e => e.2) false

/-- The scene state as the page builds it at startup. -/
def stockScene : SceneState :=
  { entries := (buildSystem planetsData).planetOrbits,
    hoverablePlanets := (buildSystem planetsData).hoverablePlanets,
    ringMeshes := (buildSystem planetsData).ringMeshes,
    animationActive := animationActiveInit }

/-- A malformed catalog entry: its planet radius is negative. -/
def badPlanet : PlanetData :=
  { name := "Phantom", orbitRadius := 5, planetRadius := -1,
    color := some 0xffffff, rotationSpeed := 0.01,
    funFact := "A malformed catalog entry used to probe validation." }

/-- A sphere mesh sitting near the camera on a test ray. -/
def nearSphere : Mesh :=
  { kind := .planet, radius := 1, posX := 10, userName := some "Near", userFact := none }

/-- A sphere mesh sitting farther from the camera on the same ray. -/
def farSphere : Mesh :=
  { kind := .planet, radius := 1, posX := 20, userName := some "Far", userFact := none }

/-- Two non-overlapping spheres along one test ray. -/
def demoSpheres : List Mesh := [nearSphere, farSphere]

/-- A test oracle: the ray meets the near sphere at parameter 10 and
the far sphere at parameter 20. -/
def demoRayHit (m : Mesh) : Option ℚ :=
  if m.userName = some "Near" then some 10
  else if m.userName = some "Far" then some 20
  else none

/-- A static test camera: every pointer position casts the test ray. -/
def demoCamera (_mouse : ℚ × ℚ) (m : Mesh) : Option ℚ := demoRayHit m

/-- Membership in the intersection list characterizes exactly the
registry members the ray hits, at their hit distance. -/
theorem mem_intersectObjects (rayHit : Mesh → Option ℚ) (objs : List Mesh) (h : Hit) :
    h ∈ intersectObjects rayHit objs ↔
      h.object ∈ objs ∧ rayHit h.object = some h.distance := by
  unfold intersectObjects
  rw [(List.perm_insertionSort hitLE _).mem_iff, List.mem_filterMap]
  constructor
  · rintro ⟨o, ho, hf⟩
    obtain ⟨t, ht, rfl⟩ := Option.map_eq_some'.1 hf
    exact ⟨ho, ht⟩
  · rintro ⟨ho, ht⟩
    exact ⟨h.object, ho, by rw [ht]; rfl⟩

/-- The intersection list is empty exactly when no member is hit. -/
theorem intersectObjects_eq_nil (rayHit : Mesh → Option ℚ) (objs : List Mesh) :
    intersectObjects rayHit objs = [] ↔ ∀ o ∈ objs, rayHit o = none := by
  rw [List.eq_nil_iff_forall_not_mem]
  constructor
  · intro hn o ho
    cases hr : rayHit o with
    | none => rfl
    | some t =>
      exact absurd ((mem_intersectObjects rayHit objs ⟨o, t⟩).2 ⟨ho, hr⟩) (hn _)
  · intro hall h hmem
    obtain ⟨ho, hr⟩ := (mem_intersectObjects rayHit objs h).1 hmem
    rw [hall _ ho] at hr
    cases hr

/-- The head of the intersection list has minimal ray parameter. -/
theorem head_intersectObjects_min (rayHit : Mesh → Option ℚ) (objs : List Mesh)
    (h : Hit) (hh : (intersectObjects rayHit objs).head? = some h) :
    ∀ g ∈ intersectObjects rayHit objs, h.distance ≤ g.distance := by
  have hs : List.Sorted hitLE (intersectObjects rayHit objs) :=
    List.sorted_insertionSort hitLE _
  cases hl : intersectObjects rayHit objs with
  | nil => rw [hl] at hh; cases hh
  | cons a tail =>
    rw [hl] at hh hs
    injection hh with he
    subst he
    intro g hg
    rcases List.mem_cons.1 hg with hga | hgt
    · simp [hga]
    · exact List.rel_of_sorted_cons hs g hgt

/-- Composing two rotation updates adds the angle increments. -/
theorem rotateEntry_rotateEntry (t1 t2 : ℚ) (e : AnimEntry) :
    rotateEntry t2 (rotateEntry t1 e) = rotateEntry (t1 + t2) e := by
  simp [rotateEntry]
  ring

/-- C1 (evaluation at the failing input): qualifying Mars clicks at
0ms and 3000ms.  `showGifOverlay` never clears the pending timeout, so
the hide scheduled by the first click fires at 5000ms: the overlay is
visible at 3000ms and 4999ms but already hidden at 5000ms, 6000ms and
7999ms — it is not re-armed to stay visible until 8000ms. -/
theorem overlay_timer_not_rearmed :
    overlayVisibleAt [0, 3000] 3000 = true ∧
    overlayVisibleAt [0, 3000] 4999 = true ∧
    overlayVisibleAt [0, 3000] 5000 = false ∧
    overlayVisibleAt [0, 3000] 6000 = false ∧
    overlayVisibleAt [0, 3000] 7999 = false := by decide

/-- C2: `pick` (the selection both handlers perform on
`intersectObjects` output) returns none exactly when the ray hits no
registry member, and otherwise some member of the registry whose ray
parameter is a hit and is minimal among all hit members. -/
theorem pick_nearest (rayHit : Mesh → Option ℚ) (objs : List Mesh) :
    (pick rayHit objs = none ↔ ∀ o ∈ objs, rayHit o = none) ∧
    (∀ m, pick rayHit objs = some m →
      m ∈ objs ∧ ∃ t, rayHit m = some t ∧
        ∀ o ∈ objs, ∀ u, rayHit o = some u → t ≤ u) := by
  constructor
  · rw [pick, Option.map_eq_none', List.head?_eq_none_iff, intersectObjects_eq_nil]
  · intro m hm
    rw [pick] at hm
    obtain ⟨h, hh, rfl⟩ := Option.map_eq_some'.1 hm
    have hmem : h ∈ intersectObjects rayHit objs := by
      cases hl : intersectObjects rayHit objs with
      | nil => rw [hl] at hh; cases hh
      | cons a tail =>
        rw [hl] at hh
        injection hh with he
        rw [← he]
        exact List.mem_cons_self a tail
    obtain ⟨ho, hr⟩ := (mem_intersectObjects rayHit objs h).1 hmem
    refine ⟨ho, h.distance, hr, ?_⟩
    intro o hoo u hu
    exact head_intersectObjects_min rayHit objs h hh _
      ((mem_intersectObjects rayHit objs ⟨o, u⟩).2 ⟨hoo, hu⟩)

/-- C2 witness: two non-overlapping spheres on the test ray; `pick`
chooses the near one, which is in the registry, hit at parameter 10,
minimal among all hits. -/
theorem pick_nearest_witness :
    pick demoRayHit demoSpheres = some nearSphere ∧
    (nearSphere ∈ demoSpheres ∧ ∃ t, demoRayHit nearSphere = some t ∧
      ∀ o ∈ demoSpheres, ∀ u, demoRayHit o = some u → t ≤ u) :=
  ⟨by rfl, (pick_nearest demoRayHit demoSpheres).2 nearSphere (by rfl)⟩

/-- C3: on the stock 8-planet catalog, `buildSystem` yields 9 animation
entries — one scene-level orbit node per planet in catalog order plus
exactly one nested moon entry, sitting right after Earth, the only
`hasMoon` entry — and a pickable registry of exactly the 8 planet
meshes Mercury through Neptune, containing no moon, ring or sun kind. -/
theorem buildSystem_stock :
    (buildSystem planetsData).planetOrbits.length = 9 ∧
    (buildSystem planetsData).planetOrbits.map
        (fun e => (e.group.bodyMesh.userName, e.group.bodyMesh.kind, e.group.inScene)) =
      [(some "Mercury", .planet, true), (some "Venus", .planet, true),
       (some "Earth", .planet, true), (none, .moon, false),
       (some "Mars", .planet, true), (some "Jupiter", .planet, true),
       (some "Saturn", .planet, true), (some "Uranus", .planet, true),
       (some "Neptune", .planet, true)] ∧
    ((buildSystem planetsData).planetOrbits.filter (fun e => !e.group.inScene)).length
      = (planetsData.filter (fun p => p.hasMoon)).length ∧
    (buildSystem planetsData).hoverablePlanets.length = 8 ∧
    (buildSystem planetsData).hoverablePlanets.map (fun m => (m.userName, m.kind)) =
      [(some "Mercury", .planet), (some "Venus", .planet), (some "Earth", .planet),
       (some "Mars", .planet), (some "Jupiter", .planet), (some "Saturn", .planet),
       (some "Uranus", .planet), (some "Neptune", .planet)] := by decide

/-- C4: while `animationActive` is false (paused), any sequence of
`advance` calls, with arbitrary deltaTime values, leaves the entry list
— in particular every rotation angle — unchanged. -/
theorem advance_paused_invariant (entries : List AnimEntry) (deltas : List ℚ) :
    deltas.foldl (fun es d => advance es d false) entries = entries ∧
    (deltas.foldl (fun es d => advance es d false) entries).map
        (fun e => e.group.rotationY)
      = entries.map (fun e => e.group.rotationY) := by
  have key : deltas.foldl (fun es d => advance es d false) entries = entries := by
    induction deltas generalizing entries with
    | nil => rfl
    | cons d ds ih => exact ih entries
  exact ⟨key, by rw [key]⟩

/-- C5: unpaused `advance` is linear in time — advancing by `t1` then
`t2` equals one advance by `t1 + t2`. -/
theorem advance_time_linear (entries : List AnimEntry) (t1 t2 : ℚ) :
    advance (advance entries t1 true) t2 true = advance entries (t1 + t2) true := by
  simp [advance, List.map_map, Function.comp_def, rotateEntry_rotateEntry]

/-- C6: the pause state is the Boolean `animationActive` (Running =
true, Paused = false); it starts Running, `mousedown` moves it to
Paused, `mouseup` to Running, and the remaining window events
(`mousemove`, `click`, `resize`) never change it. -/
theorem pause_state_machine :
    animationActiveInit = true ∧
    (∀ a, handleEvent a .mousedown = false) ∧
    (∀ a, handleEvent a .mouseup = true) ∧
    (∀ a, handleEvent a .mousemove = a) ∧
    (∀ a, handleEvent a .click = a) ∧
    (∀ a, handleEvent a .resize = a) :=
  ⟨rfl, fun _ => rfl, fun _ => rfl, fun _ => rfl, fun _ => rfl, fun _ => rfl⟩

/-- C7 counterexample: a catalog entry with negative radius is not
caught by any validation — `buildSystem` on the malformed entry still
registers its mesh (with negative radius) and its animation entry. -/
theorem no_validation_counterexample :
    badPlanet.planetRadius < 0 ∧
    (buildSystem [badPlanet]).hoverablePlanets = [mkPlanetMesh badPlanet] ∧
    (buildSystem [badPlanet]).planetOrbits.length = 1 ∧
    (mkPlanetMesh badPlanet).radius < 0 := by
  refine ⟨by norm_num [badPlanet], by simp [buildSystem],
    by simp [buildSystem, entryAnims, badPlanet], by norm_num [mkPlanetMesh, badPlanet]⟩

/-- C7 amended: graph construction performs no validation — a catalog
containing a malformed (negative-radius) entry is built entry for
entry, the malformed one included, and the remaining entries are
unaffected; nothing aborts. -/
theorem build_without_validation (pre post : List PlanetData) (bad : PlanetData)
    (_h : bad.planetRadius < 0) :
    (buildSystem (pre ++ bad :: post)).hoverablePlanets
      = pre.map mkPlanetMesh ++ mkPlanetMesh bad :: post.map mkPlanetMesh ∧
    mkPlanetMesh bad ∈ (buildSystem (pre ++ bad :: post)).hoverablePlanets ∧
    (buildSystem (pre ++ bad :: post)).planetOrbits
      = pre.flatMap entryAnims ++ (entryAnims bad ++ post.flatMap entryAnims) := by
  refine ⟨by simp [buildSystem], by simp [buildSystem], by simp [buildSystem]⟩

/-- C7 amended witness: the malformed entry prepended to the stock
catalog is itself registered among the pickables. -/
theorem build_without_validation_witness :
    badPlanet.planetRadius < 0 ∧
    mkPlanetMesh badPlanet ∈ (buildSystem ([] ++ badPlanet :: planetsData)).hoverablePlanets :=
  ⟨by norm_num [badPlanet],
   (build_without_validation [] planetsData badPlanet (by norm_num [badPlanet])).2.1⟩

/-- C8: picking is deterministic — a static camera and registry, and
two pointer events with identical normalized coordinates, produce the
same pick result. -/
theorem pick_deterministic (camera : ℚ × ℚ → Mesh → Option ℚ) (objs : List Mesh)
    (cx1 cy1 cx2 cy2 w ht : ℚ)
    (h : normalizedMouse cx1 cy1 w ht = normalizedMouse cx2 cy2 w ht) :
    pickAt camera (normalizedMouse cx1 cy1 w ht) objs
      = pickAt camera (normalizedMouse cx2 cy2 w ht) objs := by
  rw [h]

/-- C8 witness: the same pixel position twice on the test camera and
registry. -/
theorem pick_deterministic_witness :
    normalizedMouse 100 100 200 200 = normalizedMouse 100 100 200 200 ∧
    pickAt demoCamera (normalizedMouse 100 100 200 200) demoSpheres
      = pickAt demoCamera (normalizedMouse 100 100 200 200) demoSpheres :=
  ⟨rfl, pick_deterministic demoCamera demoSpheres 100 100 100 100 200 200 rfl⟩

/-- C9: an unpaused frame changes only the rotation angles of the
nodes listed in the animation entries (each incremented by
`speed * delta * 60`); the entries' speeds, the body meshes (hence
every local position offset), the scene membership flags, the pickable
registry, the ring meshes and the pause flag are all unchanged. -/
theorem animate_frame_effect (s : SceneState) (delta : ℚ)
    (h : s.animationActive = true) :
    (animateStep s delta).entries.map (fun e => e.speed)
        = s.entries.map (fun e => e.speed) ∧
    (animateStep s delta).entries.map (fun e => e.group.bodyMesh)
        = s.entries.map (fun e => e.group.bodyMesh) ∧
    (animateStep s delta).entries.map (fun e => e.group.inScene)
        = s.entries.map (fun e => e.group.inScene) ∧
    (animateStep s delta).entries.map (fun e => e.group.rotationY)
        = s.entries.map (fun e => e.group.rotationY + e.speed * delta * 60) ∧
    (animateStep s delta).hoverablePlanets = s.hoverablePlanets ∧
    (animateStep s delta).ringMeshes = s.ringMeshes ∧
    (animateStep s delta).animationActive = s.animationActive := by
  simp [animateStep, advance, h, rotateEntry, List.map_map, Function.comp_def]

/-- C9 witness: one unpaused frame of one second on the stock scene. -/
theorem animate_frame_effect_witness :
    stockScene.animationActive = true ∧
    ((animateStep stockScene 1).entries.map (fun e => e.speed)
        = stockScene.entries.map (fun e => e.speed) ∧
      (animateStep stockScene 1).entries.map (fun e => e.group.bodyMesh)
        = stockScene.entries.map (fun e => e.group.bodyMesh) ∧
      (animateStep stockScene 1).entries.map (fun e => e.group.inScene)
        = stockScene.entries.map (fun e => e.group.inScene) ∧
      (animateStep stockScene 1).entries.map (fun e => e.group.rotationY)
        = stockScene.entries.map (fun e => e.group.rotationY + e.speed * 1 * 60) ∧
      (animateStep stockScene 1).hoverablePlanets = stockScene.hoverablePlanets ∧
      (animateStep stockScene 1).ringMeshes = stockScene.ringMeshes ∧
      (animateStep stockScene 1).animationActive = stockScene.animationActive) :=
  ⟨rfl, animate_frame_effect stockScene 1 rfl⟩

/-- C10: every speed in the entries being nonnegative, an `advance`
with nonnegative deltaTime — paused or not — never decreases any
rotation angle (entry by entry). -/
theorem advance_never_decreases (entries : List AnimEntry) (delta : ℚ) (active : Bool)
    (hs : ∀ e ∈ entries, 0 ≤ e.speed) (hd : 0 ≤ delta) :
    List.Forall₂ (fun e f => e.group.rotationY ≤ f.group.rotationY)
      entries (advance entries delta active) := by
  cases active with
  | false =>
    simp only [advance, Bool.false_eq_true, if_false]
    exact List.forall₂_same.2 fun e _ => le_refl _
  | true =>
    simp only [advance, if_true]
    rw [List.forall₂_map_right_iff]
    refine List.forall₂_same.2 fun e he => ?_
    have h1 : 0 ≤ e.speed * delta * 60 :=
      mul_nonneg (mul_nonneg (hs e he) hd) (by norm_num)
    simp only [rotateEntry]
    linarith

/-- C10 witness: the stock entries (all eight catalog speeds and the
moon speed are nonnegative) advanced unpaused by one second. -/
theorem advance_never_decreases_witness :
    (∀ e ∈ stockScene.entries, 0 ≤ e.speed) ∧ ((0 : ℚ) ≤ 1) ∧
    List.Forall₂ (fun e f => e.group.rotationY ≤ f.group.rotationY)
      stockScene.entries (advance stockScene.entries 1 true) :=
  ⟨by norm_num [stockScene, buildSystem, planetsData, entryAnims, mkPlanetMesh, moonMesh],
   by norm_num,
   advance_never_decreases stockScene.entries 1 true
     (by norm_num [stockScene, buildSystem, planetsData, entryAnims, mkPlanetMesh, moonMesh])
     (by norm_num)⟩

end App
